import Mathlib

/-!
Shallow embedding of src/RaspberryPiADS1298/Ads1298Api.py.

Conventions used throughout:
* Python bytes are modelled as Nat (with explicit < 256 range checks where
  the Python runtime enforces them, e.g. struct.pack with format "3B").
* Python exceptions (ValueError, AssertionError, AttributeError,
  struct.error) are modelled as Except.error / an err field carrying the
  message of the raised exception.
* Python float arithmetic on the scale constant is modelled with Rat; the
  claims proved below concern only the count, the order and the sign of the
  decoded values, none of which depends on floating-point rounding.
* The or of the source's transaction encoding (|) is kept as |||; masking
  and shifting on the status word (& 0xffffff, >> k, & 0xff) are written
  with their arithmetic meaning (% 2 ^ 24, / 2 ^ k, % 2 ^ 8) on Nat.
-/

/-- SCALE_TO_UVOLT = (5 / 12) / (2 ** 24), the fixed ExG scaling constant
of the source (gain 12, 5 V reference), as an exact rational. -/
def SCALE_TO_UVOLT : Rat := (5 / 12) / (2 ^ 24)

/-- NUM_CHANNELS module constant of the source. -/
def NUM_CHANNELS : Nat := 8

/-- Embedding of convert_24b_data(unpacked, fmt=">i") with the default
signed format: length check, struct.pack("3B") range check, then the
two's-complement prefix b"\xff"/b"\x00" chosen on unpacked[0] > 127 and a
big-endian signed 32-bit unpack of the 4 assembled bytes. -/
def convert_24b_data : List Nat → Except String Int
  | [b0, b1, b2] =>
    if b0 ≤ 255 ∧ b1 ≤ 255 ∧ b2 ≤ 255 then
      let sb : Nat := if 127 < b0 then 0xff else 0x00
      let u32 : Nat := sb * 2 ^ 24 + (b0 * 2 ^ 16 + b1 * 2 ^ 8 + b2)
      Except.ok (if u32 < 2 ^ 31 then (u32 : Int) else (u32 : Int) - 2 ^ 32)
    else Except.error ("ubyte format requires 0 <= number <= 255")
  | _ => Except.error ("Input should be 3 bytes long.")

/-- Embedding of convert_24b_data(unpacked, ">I") as called by
default_callback: identical byte assembly, but the 4 assembled bytes are
unpacked as an unsigned 32-bit integer. -/
def convert_24b_data_u : List Nat → Except String Nat
  | [b0, b1, b2] =>
    if b0 ≤ 255 ∧ b1 ≤ 255 ∧ b2 ≤ 255 then
      let sb : Nat := if 127 < b0 then 0xff else 0x00
      Except.ok (sb * 2 ^ 24 + (b0 * 2 ^ 16 + b1 * 2 ^ 8 + b2))
    else Except.error ("ubyte format requires 0 <= number <= 255")
  | _ => Except.error ("Input should be 3 bytes long.")

/-- Embedding of convert_24b_to_float: the signed 24-bit value scaled by
SCALE_TO_UVOLT. -/
def convert_24b_to_float (unpacked : List Nat) : Except String Rat :=
  (convert_24b_data unpacked).map (fun v : Int => (v : Rat) * SCALE_TO_UVOLT)

/-- Check performed by the assert of default_callback on the masked status
word: status_word >> 20 == 0b1100 (the shift is division by 2 ^ 20). -/
def status_in_sync (status_word : Nat) : Bool :=
  status_word / 2 ^ 20 == 0b1100

/-- The i-th 3-byte channel group of a raw frame:
raw[(i * 3 + 3):((i + 1) * 3 + 3)] of the source's decode loop. -/
def chanSlice (raw : List Nat) (i : Nat) : List Nat :=
  (raw.drop (i * 3 + 3)).take 3

/-- Body of the decode loop of default_callback for the listed channel
indices: each channel group goes through convert_24b_to_float, in index
order, and the first exception aborts the remaining iterations exactly as
in Python. -/
def decode_channels (raw : List Nat) : List Nat → Except String (List Rat)
  | [] => Except.ok []
  | i :: is => do
    let v ← convert_24b_to_float (chanSlice raw i)
    let rest ← decode_channels raw is
    Except.ok (v :: rest)

/-- Embedding of default_callback(raw), generalised over the channel count
(the source fixes it to the module constant NUM_CHANNELS): the first 3
bytes become the 24-bit status word (unsigned unpack, then & 0xffffff), the
assert on the top 4 bits fires next, then the lead-off bytes are extracted
and every 3-byte channel group is converted in input order. The
GPIO.output(CE1, HIGH) side effect and the final prints of the source do
not affect the decoded result and are not part of the embedding. -/
def decode_frame (channel_count : Nat) (raw : List Nat) :
    Except String (Nat × Nat × List Rat) := do
  let u ← convert_24b_data_u (raw.take 3)
  let status_word := u % 2 ^ 24
  if status_in_sync status_word then
    let loff_stat_p := status_word / 2 ^ 12 % 2 ^ 8
    let loff_stat_n := status_word / 2 ^ 4 % 2 ^ 8
    let samples ← decode_channels raw (List.range channel_count)
    Except.ok (loff_stat_p, loff_stat_n, samples)
  else Except.error ("Data stream out of sync")

/-- The default_callback of the source is the frame decoder at the fixed
module channel count. -/
def default_callback (raw : List Nat) : Except String (Nat × Nat × List Rat) :=
  decode_frame NUM_CHANNELS raw

/-- Value of the i-th channel group of a frame as the decode loop computes
it, as a total function (only used at indices whose group is 3 full
bytes). -/
def sliceVal (raw : List Nat) (i : Nat) : Rat :=
  match chanSlice raw i with
  | [b0, b1, b2] =>
    let v : Int := ((b0 * 2 ^ 16 + b1 * 2 ^ 8 + b2 : Nat) : Int)
      - (if 127 < b0 then (2 ^ 24 : Int) else 0)
    (v : Rat) * SCALE_TO_UVOLT
  | _ => 0

/-- Embedding of Ads1298Api.set_sampling_rate's register-value computation:
base value 0x80, a plain if for the 4000 case followed by a separate
if/elif/elif/else chain — faithfully keeping the source's control flow, in
which 4000 falls through to the else branch and raises ValueError. The
Except.ok value is the byte subsequently written to REG_CONFIG1. -/
def set_sampling_rate_reg (sampling_rate : Nat) : Except String Nat :=
  let temp0 : Nat := 0x80
  let temp1 : Nat := if sampling_rate = 4000 then temp0 ||| 0b011 else temp0
  if sampling_rate = 2000 then Except.ok (temp1 ||| 0b100)
  else if sampling_rate = 1000 then Except.ok (temp1 ||| 0b101)
  else if sampling_rate = 500 then Except.ok (temp1 ||| 0b110)
  else Except.error ("Invalid sample rate")

/-- ADS1298 register map constants of the source. -/
def REG_ID : Nat := 0x00

/-- Configuration register 1 (sampling rate). -/
def REG_CONFIG1 : Nat := 0x01

/-- Configuration register 2. -/
def REG_CONFIG2 : Nat := 0x02

/-- Configuration register 3. -/
def REG_CONFIG3 : Nat := 0x03

/-- Configuration register 4. -/
def REG_CONFIG4 : Nat := 0x17

/-- Lead-off control register. -/
def REG_LOFF : Nat := 0x04

/-- Base address of the per-channel configuration registers. -/
def REG_CHnSET_BASE : Nat := 0x05

/-- Bias-drive positive-sense register. -/
def REG_BIAS_SENSP : Nat := 0x0D

/-- Bias-drive negative-sense register. -/
def REG_BIAS_SENSN : Nat := 0x0E

/-- Lead-off positive-sense register. -/
def REG_LOFF_SENSP : Nat := 0x0F

/-- Lead-off negative-sense register. -/
def REG_LOFF_SENSN : Nat := 0x10

/-- Lead-off flip register. -/
def REG_LOFF_FLIP : Nat := 0x11

/-- Wilson-central-terminal register 1. -/
def REG_WCT1 : Nat := 0x18

/-- Wilson-central-terminal register 2. -/
def REG_WCT2 : Nat := 0x19

/-- ADS1298 command opcodes of the source. -/
def WAKEUP : Nat := 0x02

/-- Standby command opcode. -/
def STANDBY : Nat := 0x04

/-- Reset command opcode. -/
def RESET_CMD : Nat := 0x06

/-- Start command opcode. -/
def START_CMD : Nat := 0x08

/-- Stop command opcode. -/
def STOP_CMD : Nat := 0x0A

/-- Read-data-continuous command opcode. -/
def RDATAC : Nat := 0x10

/-- Stop-data-continuous command opcode. -/
def SDATAC : Nat := 0x11

/-- Read-single-data command opcode. -/
def RDATA : Nat := 0x12

/-- Module-level pin-number constants of the source. -/
def START_PIN : Nat := 22

/-- nRESET pin number (module constant). -/
def nRESET_PIN : Nat := 24

/-- nPWRDN pin number (module constant). -/
def nPWRDN_PIN : Nat := 25

/-- DRDY pin number (module constant). -/
def DRDY_PIN : Nat := 23

/-- CE1 pin number (module constant). -/
def CE1 : Nat := 7

/-- Embedding of Ads1298Api.spi_write_single_reg(reg, byte): the register
image (config_registers dict, modelled as a partial map) is updated first,
unconditionally; then, only when STUB_API is false, the 3-byte transaction
[reg | 0x40, 0x00, byte] is transferred on the bus. The returned pair is
(updated image, list of bus transactions performed). -/
def spi_write_single_reg (stub : Bool) (regs : Nat → Option Nat)
    (reg byte : Nat) : (Nat → Option Nat) × List (List Nat) :=
  (fun a => if a = reg then some byte else regs a,
   if stub then [] else [[reg ||| 0x40, 0x00, byte]])

/-- Loop of spi_write_multiple_reg over the register image: for index,
addr in enumerate(range(start_reg, start_reg + len(byte_array))) the entry
at addr is set to byte_array[index]. -/
def writeImageRange (regs : Nat → Option Nat) (addr : Nat) :
    List Nat → (Nat → Option Nat)
  | [] => regs
  | b :: bs => writeImageRange (fun a => if a = addr then some b else regs a) (addr + 1) bs

/-- Embedding of Ads1298Api.spi_write_multiple_reg(start_reg, byte_array):
the register image is updated for every address of the contiguous range
first, unconditionally; then, only when STUB_API is false, the transaction
[start_reg | 0x40, len(byte_array) - 1] ++ byte_array is transferred. -/
def spi_write_multiple_reg (stub : Bool) (regs : Nat → Option Nat)
    (start_reg : Nat) (byte_array : List Nat) : (Nat → Option Nat) × List (List Nat) :=
  (writeImageRange regs start_reg byte_array,
   if stub then [] else [[start_reg ||| 0x40, byte_array.length - 1] ++ byte_array])

/-- Observable effects of the Ads1298Api methods: SPI transfers (the full
payload handed to spi.xfer), SPI reads of a byte count
(spi_read_multiple_bytes), GPIO pin writes (GPIO.output), GPIO pin setup
(GPIO.setup, in open_device), sleeps, and the synchronous invocation of a
registered client handle with the raw frame. -/
inductive Act where
  | busWrite : List Nat → Act
  | busRead : Nat → Act
  | pinSet : Nat → Bool → Act
  | gpioSetup : Nat → Act
  | sleepMs : Nat → Act
  | dispatch : Nat → Act
  deriving DecidableEq

/-- Mutable attribute state of an Ads1298Api instance, as set in the class
body: device configuration (nb_channels, sampling_rate, bias_enabled), the
stream_active flag, the APIAlive flag, the ordered client handle list
(handles are opaque Nat identifiers) and the mirrored register image
config_registers. -/
structure AdsState where
  nb_channels : Nat
  sampling_rate : Nat
  bias_enabled : Bool
  stream_active : Bool
  APIAlive : Bool
  clientUpdateHandles : List Nat
  config_registers : Nat → Option Nat

/-- Initial attribute values from the class body of Ads1298Api:
nb_channels = 8, sampling_rate = 500, bias_enabled = False,
stream_active = False, APIAlive = True, no clients, empty register
image. -/
def initState : AdsState :=
  { nb_channels := 8
    sampling_rate := 500
    bias_enabled := false
    stream_active := false
    APIAlive := true
    clientUpdateHandles := []
    config_registers := fun _ => none }

/-- Result of one (possibly raising) method call: the attribute state after
the call (Python mutations performed before an exception are retained), the
observable actions performed, and the exception message when one
propagated. -/
structure MRes where
  st : AdsState
  acts : List Act
  err : Option String

/-- Normal completion with the given actions. -/
def mok (s : AdsState) (as : List Act) : MRes :=
  { st := s, acts := as, err := none }

/-- Raised exception carrying the message e, after the given actions. -/
def mfail (s : AdsState) (as : List Act) (e : String) : MRes :=
  { st := s, acts := as, err := some e }

/-- Statement sequencing with Python exception semantics: the second
statement runs only when the first did not raise; actions accumulate. -/
def mseq (r : MRes) (f : AdsState → MRes) : MRes :=
  match r.err with
  | some _ => r
  | none =>
    let r2 := f r.st
    { st := r2.st, acts := r.acts ++ r2.acts, err := r2.err }

/-- Embedding of spi_transmit_byte: a single-byte xfer, skipped entirely in
stub mode. -/
def spi_transmit_byte (stub : Bool) (byte : Nat) (s : AdsState) : MRes :=
  mok s (if stub then [] else [Act.busWrite [byte]])

/-- State-level wrapper of spi_write_single_reg: updates config_registers,
then performs the encoded transaction (none in stub mode). -/
def wr_single (stub : Bool) (reg byte : Nat) (s : AdsState) : MRes :=
  let p := spi_write_single_reg stub s.config_registers reg byte
  mok { s with config_registers := p.1 } (p.2.map Act.busWrite)

/-- State-level wrapper of spi_write_multiple_reg. -/
def wr_multiple (stub : Bool) (start_reg : Nat) (byte_array : List Nat)
    (s : AdsState) : MRes :=
  let p := spi_write_multiple_reg stub s.config_registers start_reg byte_array
  mok { s with config_registers := p.1 } (p.2.map Act.busWrite)

/-- Embedding of configure_all_channels(config): one multi-register write
of [config] * NUM_CHANNELS starting at REG_CHnSET_BASE. -/
def configure_all_channels (stub : Bool) (config : Nat) (s : AdsState) : MRes :=
  wr_multiple stub REG_CHnSET_BASE (List.replicate NUM_CHANNELS config) s

/-- Embedding of Ads1298Api.set_sampling_rate: computes the CONFIG1 value
from the instance's sampling_rate via set_sampling_rate_reg (raising
ValueError exactly when that computation does) and writes it to
REG_CONFIG1. -/
def set_sampling_rate (stub : Bool) (s : AdsState) : MRes :=
  match set_sampling_rate_reg s.sampling_rate with
  | Except.error e => mfail s [] e
  | Except.ok v => wr_single stub REG_CONFIG1 v s

/-- Embedding of reset_ongoing_state: SDATAC, CONFIG3 := 0x48, the sampling
rate write, CONFIG2 := 0xC0, both bias-sense registers cleared, all channel
inputs shorted (0x01). -/
def reset_ongoing_state (stub : Bool) (s : AdsState) : MRes :=
  mseq (spi_transmit_byte stub SDATAC s) (fun s1 =>
  mseq (wr_single stub REG_CONFIG3 0x48 s1) (fun s2 =>
  mseq (set_sampling_rate stub s2) (fun s3 =>
  mseq (wr_single stub REG_CONFIG2 0xC0 s3) (fun s4 =>
  mseq (wr_single stub REG_BIAS_SENSP 0x00 s4) (fun s5 =>
  mseq (wr_single stub REG_BIAS_SENSN 0x00 s5) (fun s6 =>
  configure_all_channels stub 0x01 s6))))))

/-- Embedding of configure_dc_leads_off(enable). -/
def configure_dc_leads_off (stub : Bool) (enable : Bool) (s : AdsState) : MRes :=
  if enable then
    mseq (wr_single stub REG_LOFF 0x93 s) (fun s1 =>
    mseq (wr_single stub REG_LOFF_SENSP 0xFF s1) (fun s2 =>
    mseq (wr_single stub REG_LOFF_SENSN 0xFF s2) (fun s3 =>
    mseq (wr_single stub REG_LOFF_FLIP 0xFF s3) (fun s4 =>
    wr_single stub REG_CONFIG4 0x02 s4))))
  else
    mseq (wr_single stub REG_LOFF 0x00 s) (fun s1 =>
    mseq (wr_single stub REG_LOFF_SENSP 0x00 s1) (fun s2 =>
    mseq (wr_single stub REG_LOFF_SENSN 0x00 s2) (fun s3 =>
    mseq (wr_single stub REG_LOFF_FLIP 0x00 s3) (fun s4 =>
    wr_single stub REG_CONFIG4 0x00 s4))))

/-- Embedding of setup_bias_drive: a no-op unless bias_enabled; otherwise
both bias-sense registers are set to 2 ** NUM_CHANNELS - 1 and CONFIG3 to
0xEC. -/
def setup_bias_drive (stub : Bool) (s : AdsState) : MRes :=
  if !s.bias_enabled then mok s []
  else
    mseq (wr_single stub REG_BIAS_SENSP (2 ^ NUM_CHANNELS - 1) s) (fun s1 =>
    mseq (wr_single stub REG_BIAS_SENSN (2 ^ NUM_CHANNELS - 1) s1) (fun s2 =>
    wr_single stub REG_CONFIG3 0xEC s2))

/-- Embedding of setup_exg_mode. -/
def setup_exg_mode (stub : Bool) (s : AdsState) : MRes :=
  mseq (wr_single stub REG_CONFIG2 0x00 s) (fun s1 =>
  mseq (configure_all_channels stub 0x60 s1) (fun s2 =>
  mseq (wr_single stub REG_BIAS_SENSP 0xFF s2) (fun s3 =>
  mseq (wr_single stub REG_BIAS_SENSN 0x01 s3) (fun s4 =>
  mseq (wr_single stub REG_WCT1 0xA s4) (fun s5 =>
  mseq (configure_dc_leads_off stub true s5) (fun s6 =>
  setup_bias_drive stub s6))))))

/-- Embedding of setup_test_mode. -/
def setup_test_mode (stub : Bool) (s : AdsState) : MRes :=
  mseq (spi_transmit_byte stub SDATAC s) (fun s1 =>
  mseq (wr_single stub REG_CONFIG2 0x11 s1) (fun s2 =>
  mseq (wr_single stub REG_CONFIG3 0xC0 s2) (fun s3 =>
  mseq (configure_dc_leads_off stub false s3) (fun s4 =>
  configure_all_channels stub 0x05 s4))))

/-- Names that Python attribute lookup can resolve on an Ads1298Api
instance: the data attributes assigned in the class body and the method
names. The pin-number constants START_PIN, nRESET_PIN, nPWRDN_PIN,
DRDY_PIN and CE1 are module-level variables of Ads1298Api.py and are NOT
in this set, so self.START_PIN etc. raise AttributeError. -/
def ads1298ClassAttrNames : List String :=
  ["spi", "stubThread", "APIAlive", "spi_lock", "clientUpdateHandles",
   "nb_channels", "sampling_rate", "bias_enabled", "stream_active",
   "spi_speed", "spi_pause", "config_registers",
   "open_device", "close_device", "start_exg_stream", "start_test_stream",
   "stop_stream", "register_client", "configure",
   "ads1298_startup_sequence", "setup_exg_mode", "configure_dc_leads_off",
   "setup_test_mode", "reset_ongoing_state", "set_sampling_rate",
   "setup_bias_drive", "stub_task", "check_device_id", "drdy_callback",
   "set_start", "toggle_reset", "set_nreset", "set_npwrdn",
   "configure_all_channels", "set_pin", "spi_transmit_byte",
   "spi_write_single_reg", "spi_write_multiple_reg",
   "spi_read_multiple_bytes", "spi_read_reg"]

/-- Embedding of set_pin(pin, state): returns early in stub mode, otherwise
performs one GPIO.output. -/
def set_pin (stub : Bool) (pin : Nat) (state : Bool) : List Act :=
  if stub then [] else [Act.pinSet pin state]

/-- Embedding of set_start(state): evaluates self.START_PIN — an attribute
lookup on the instance — before set_pin runs (in both modes); the lookup
raises AttributeError because START_PIN is only a module constant. -/
def set_start (stub : Bool) (state : Bool) (s : AdsState) : MRes :=
  if "START_PIN" ∈ ads1298ClassAttrNames then mok s (set_pin stub START_PIN state)
  else mfail s [] ("AttributeError: START_PIN")

/-- Embedding of set_nreset(state): evaluates self.nRESET_PIN the same
way. -/
def set_nreset (stub : Bool) (state : Bool) (s : AdsState) : MRes :=
  if "nRESET_PIN" ∈ ads1298ClassAttrNames then mok s (set_pin stub nRESET_PIN state)
  else mfail s [] ("AttributeError: nRESET_PIN")

/-- Embedding of set_npwrdn(state): evaluates self.nPWRDN_PIN the same
way. -/
def set_npwrdn (stub : Bool) (state : Bool) (s : AdsState) : MRes :=
  if "nPWRDN_PIN" ∈ ads1298ClassAttrNames then mok s (set_pin stub nPWRDN_PIN state)
  else mfail s [] ("AttributeError: nPWRDN_PIN")

/-- Embedding of toggle_reset: nRESET low, 200 ms, nRESET high, 200 ms. -/
def toggle_reset (stub : Bool) (s : AdsState) : MRes :=
  mseq (set_nreset stub false s) (fun s1 =>
  mseq (mok s1 [Act.sleepMs 200]) (fun s2 =>
  mseq (set_nreset stub true s2) (fun s3 =>
  mok s3 [Act.sleepMs 200])))

/-- Embedding of spi_read_reg(reg): stub mode answers 0x92 for REG_ID and
0x00 otherwise; hardware mode transfers [0x20 | reg, 0x00, 0x00] and the
device's answer is the oracle readReg reg. -/
def spi_read_reg (stub : Bool) (readReg : Nat → Nat) (reg : Nat) : Nat :=
  if stub then (if reg = REG_ID then 0x92 else 0x00) else readReg reg

/-- Embedding of check_device_id: reads REG_ID and checks the three
identity masks with asserts, in source order. -/
def check_device_id (stub : Bool) (readReg : Nat → Nat) (s : AdsState) : MRes :=
  let acts : List Act := if stub then [] else [Act.busWrite [0x20 ||| REG_ID, 0x00, 0x00]]
  let res := spi_read_reg stub readReg REG_ID
  if res % 2 ^ 5 / 2 ^ 3 ≠ 0b10 then mfail s acts ("Reserved bytes don't match")
  else if res / 2 ^ 5 % 2 ^ 3 ≠ 0b100 then mfail s acts ("Not ADS129x device family")
  else if res % 2 ^ 2 ≠ 0b10 then mfail s acts ("Not ADS1298 device")
  else mok s acts

/-- Embedding of ads1298_startup_sequence: nRESET and nPWRDN high, a 1 s
settle, toggle_reset, reset_ongoing_state, check_device_id. The very first
statement raises AttributeError (self.nRESET_PIN), so nothing after it
runs. -/
def ads1298_startup_sequence (stub : Bool) (readReg : Nat → Nat) (s : AdsState) : MRes :=
  mseq (set_nreset stub true s) (fun s1 =>
  mseq (set_npwrdn stub true s1) (fun s2 =>
  mseq (mok s2 [Act.sleepMs 1000]) (fun s3 =>
  mseq (toggle_reset stub s3) (fun s4 =>
  mseq (reset_ongoing_state stub s4) (fun s5 =>
  check_device_id stub readReg s5)))))

/-- Embedding of open_device: in hardware mode the SPI port is opened and
the control/DRDY pins are configured (GPIO.setup uses the module-level pin
constants directly, so no attribute error there), then in both modes
ads1298_startup_sequence runs. The stub-mode generator thread is outside
this sequential model. -/
def open_device (stub : Bool) (readReg : Nat → Nat) (s : AdsState) : MRes :=
  mseq (mok s (if stub then [] else
      [Act.gpioSetup START_PIN, Act.gpioSetup nRESET_PIN,
       Act.gpioSetup nPWRDN_PIN, Act.gpioSetup CE1, Act.gpioSetup DRDY_PIN]))
    (fun s1 => ads1298_startup_sequence stub readReg s1)

/-- Embedding of start_exg_stream: reset_ongoing_state, setup_exg_mode,
stream_active := True, set_start(True), RDATAC — in that order, so the
AttributeError of set_start fires after the flag is set and before the
read-continuous command is transmitted. -/
def start_exg_stream (stub : Bool) (s : AdsState) : MRes :=
  mseq (reset_ongoing_state stub s) (fun s1 =>
  mseq (setup_exg_mode stub s1) (fun s2 =>
  mseq (set_start stub true { s2 with stream_active := true }) (fun s3 =>
  spi_transmit_byte stub RDATAC s3)))

/-- Embedding of start_test_stream: reset_ongoing_state, setup_test_mode,
stream_active := True, set_start(True), RDATAC. -/
def start_test_stream (stub : Bool) (s : AdsState) : MRes :=
  mseq (reset_ongoing_state stub s) (fun s1 =>
  mseq (setup_test_mode stub s1) (fun s2 =>
  mseq (set_start stub true { s2 with stream_active := true }) (fun s3 =>
  spi_transmit_byte stub RDATAC s3)))

/-- Embedding of stop_stream: SDATAC, stream_active := False,
APIAlive := False. -/
def stop_stream (stub : Bool) (s : AdsState) : MRes :=
  mseq (spi_transmit_byte stub SDATAC s) (fun s1 =>
  mok { s1 with stream_active := false, APIAlive := false } [])

/-- Embedding of register_client(client_handle): appends the handle to
clientUpdateHandles. -/
def register_client (s : AdsState) (client_handle : Nat) : MRes :=
  mok { s with clientUpdateHandles := s.clientUpdateHandles ++ [client_handle] } []

/-- Embedding of configure(sampling_rate=None, bias_enabled=None): the
assert not self.stream_active guard raises before any field is written;
otherwise exactly the fields whose optional argument is present are
updated. -/
def configure (s : AdsState) (sampling_rate : Option Nat)
    (bias_enabled : Option Bool) : MRes :=
  if s.stream_active then mfail s [] ("AssertionError: not self.stream_active")
  else
    mok { s with
          sampling_rate := sampling_rate.getD s.sampling_rate
          bias_enabled := bias_enabled.getD s.bias_enabled } []

/-- Embedding of drdy_callback(state): if the stream is not active the
event is ignored (no bus access, no dispatch); otherwise
3 + NUM_CHANNELS * 3 bytes are read (spi_read_multiple_bytes touches the
bus only in hardware mode) and every registered client handle is invoked
with the raw frame, synchronously, in list order. -/
def drdy_callback (stub : Bool) (s : AdsState) : MRes :=
  if !s.stream_active then mok s []
  else
    mok s ((if stub then [] else [Act.busRead (3 + NUM_CHANNELS * 3)])
      ++ s.clientUpdateHandles.map Act.dispatch)

/-- External events of the driver: the public configuration and control
calls, plus the hardware ready-signal (DRDY falling edge) interrupt. -/
inductive Event where
  | evConfigure : Option Nat → Option Bool → Event
  | evRegisterClient : Nat → Event
  | evStartExg : Event
  | evStartTest : Event
  | evStopStream : Event
  | evDrdy : Event
  deriving DecidableEq

/-- One event handled from a given attribute state. -/
def step (stub : Bool) (s : AdsState) : Event → MRes
  | Event.evConfigure sr be => configure s sr be
  | Event.evRegisterClient h => register_client s h
  | Event.evStartExg => start_exg_stream stub s
  | Event.evStartTest => start_test_stream stub s
  | Event.evStopStream => stop_stream stub s
  | Event.evDrdy => drdy_callback stub s

/-- Attribute state after a sequence of events starting in s; a call that
raises leaves behind exactly the mutations it performed before raising
(the .st of its MRes), as in Python. -/
def run (stub : Bool) (s : AdsState) : List Event → AdsState
  | [] => s
  | e :: es => run stub (step stub s e).st es

/-- A concrete state with an active stream and two registered clients, used
to instantiate hypotheses of the theorems below at a concrete input. -/
def exStreaming : AdsState :=
  { nb_channels := 8
    sampling_rate := 500
    bias_enabled := false
    stream_active := true
    APIAlive := true
    clientUpdateHandles := [0, 1]
    config_registers := fun _ => none }

/-- Decidable equality for Except results, by cases on the constructors. -/
instance instDecEqExcept {e a : Type} [DecidableEq e] [DecidableEq a] :
    DecidableEq (Except e a)
  | Except.ok x, Except.ok y =>
    if h : x = y then isTrue (by rw [h]) else isFalse (fun hc => by cases hc; exact h rfl)
  | Except.error x, Except.error y =>
    if h : x = y then isTrue (by rw [h]) else isFalse (fun hc => by cases hc; exact h rfl)
  | Except.ok _, Except.error _ => isFalse (fun hc => by cases hc)
  | Except.error _, Except.ok _ => isFalse (fun hc => by cases hc)

theorem convert_24b_data_eq_of_lt (b0 b1 b2 : Nat)
    (h0 : b0 < 256) (h1 : b1 < 256) (h2 : b2 < 256) :
    convert_24b_data [b0, b1, b2]
      = Except.ok (((b0 * 2 ^ 16 + b1 * 2 ^ 8 + b2 : Nat) : Int)
          - (if 127 < b0 then (2 ^ 24 : Int) else 0)) := by
  have hb : b0 ≤ 255 ∧ b1 ≤ 255 ∧ b2 ≤ 255 := by omega
  by_cases hs : 127 < b0
  · have hge : ¬ ((if 127 < b0 then 0xff else 0x00) * 2 ^ 24
        + (b0 * 2 ^ 16 + b1 * 2 ^ 8 + b2) < 2 ^ 31) := by
      simp only [if_pos hs]; omega
    simp only [convert_24b_data, if_pos hb, if_neg hge, if_pos hs]
    congr 1
    push_cast
    omega
  · have hlt : (if 127 < b0 then 0xff else 0x00) * 2 ^ 24
        + (b0 * 2 ^ 16 + b1 * 2 ^ 8 + b2) < 2 ^ 31 := by
      simp only [if_neg hs]; omega
    simp only [convert_24b_data, if_pos hb, if_pos hlt, if_neg hs]
    congr 1
    push_cast
    omega

theorem convert_24b_data_len_err (bs : List Nat) (h : bs.length ≠ 3) :
    convert_24b_data bs = Except.error ("Input should be 3 bytes long.") := by
  match bs with
  | [] => rfl
  | [_] => rfl
  | [_, _] => rfl
  | [_, _, _] => simp at h
  | _ :: _ :: _ :: _ :: _ => rfl

theorem convert_24b_data_u_eq_of_lt (b0 b1 b2 : Nat)
    (h0 : b0 < 256) (h1 : b1 < 256) (h2 : b2 < 256) :
    convert_24b_data_u [b0, b1, b2]
      = Except.ok ((if 127 < b0 then 0xff else 0x00) * 2 ^ 24
          + (b0 * 2 ^ 16 + b1 * 2 ^ 8 + b2)) := by
  have hb : b0 ≤ 255 ∧ b1 ≤ 255 ∧ b2 ≤ 255 := by omega
  simp only [convert_24b_data_u, if_pos hb]

theorem convert_24b_data_u_len_err (bs : List Nat) (h : bs.length ≠ 3) :
    convert_24b_data_u bs = Except.error ("Input should be 3 bytes long.") := by
  match bs with
  | [] => rfl
  | [_] => rfl
  | [_, _] => rfl
  | [_, _, _] => simp at h
  | _ :: _ :: _ :: _ :: _ => rfl

/-- C3: for every 3-byte input, convert_24b_data returns the 24-bit
two's-complement value sign-extended by the most significant bit of the
first byte — in [0, 2^23 - 1] when that bit is 0 and in [-2^23, -1] when
it is 1, with [0x00, 0x00, 0x01] decoding to 1 and [0xFF, 0xFF, 0xFF] to
-1 — and every input whose length is not 3 fails with the length
ValueError. -/
theorem convert_24b_data_spec (b0 b1 b2 : Nat)
    (h0 : b0 < 256) (h1 : b1 < 256) (h2 : b2 < 256) :
    convert_24b_data [b0, b1, b2]
      = Except.ok (((b0 * 2 ^ 16 + b1 * 2 ^ 8 + b2 : Nat) : Int)
          - (if 127 < b0 then (2 ^ 24 : Int) else 0))
  ∧ (b0 < 128 → ∃ v : Int, convert_24b_data [b0, b1, b2] = Except.ok v
      ∧ 0 ≤ v ∧ v ≤ 2 ^ 23 - 1)
  ∧ (127 < b0 → ∃ v : Int, convert_24b_data [b0, b1, b2] = Except.ok v
      ∧ -2 ^ 23 ≤ v ∧ v ≤ -1)
  ∧ convert_24b_data [0x00, 0x00, 0x01] = Except.ok 1
  ∧ convert_24b_data [0xFF, 0xFF, 0xFF] = Except.ok (-1)
  ∧ (∀ bs : List Nat, bs.length ≠ 3
      → convert_24b_data bs = Except.error ("Input should be 3 bytes long.")) := by
  refine ⟨convert_24b_data_eq_of_lt b0 b1 b2 h0 h1 h2, ?_, ?_, by decide, by decide,
    convert_24b_data_len_err⟩
  · intro hmsb
    refine ⟨_, convert_24b_data_eq_of_lt b0 b1 b2 h0 h1 h2, ?_, ?_⟩
    · rw [if_neg (by omega : ¬ 127 < b0)]
      push_cast
      omega
    · rw [if_neg (by omega : ¬ 127 < b0)]
      have : (b0 * 2 ^ 16 + b1 * 2 ^ 8 + b2 : Nat) ≤ 2 ^ 23 - 1 := by omega
      push_cast
      omega
  · intro hmsb
    refine ⟨_, convert_24b_data_eq_of_lt b0 b1 b2 h0 h1 h2, ?_, ?_⟩
    · rw [if_pos hmsb]
      have : (2 ^ 23 : Nat) ≤ b0 * 2 ^ 16 + b1 * 2 ^ 8 + b2 := by omega
      push_cast
      omega
    · rw [if_pos hmsb]
      have : (b0 * 2 ^ 16 + b1 * 2 ^ 8 + b2 : Nat) ≤ 2 ^ 24 - 1 := by omega
      push_cast
      omega

/-- Witness for C3 at the concrete bytes [200, 0, 5] (a negative sample)
and [3, 7, 9] (a positive one). -/
theorem convert_24b_data_spec_witness :
    (convert_24b_data [200, 0, 5]
      = Except.ok (((200 * 2 ^ 16 + 0 * 2 ^ 8 + 5 : Nat) : Int)
          - (if 127 < (200 : Nat) then (2 ^ 24 : Int) else 0)))
  ∧ (∃ v : Int, convert_24b_data [3, 7, 9] = Except.ok v ∧ 0 ≤ v ∧ v ≤ 2 ^ 23 - 1) :=
  ⟨(convert_24b_data_spec 200 0 5 (by decide) (by decide) (by decide)).1,
   (convert_24b_data_spec 3 7 9 (by decide) (by decide) (by decide)).2.1 (by decide)⟩

/-- C1: the sampling-rate register computation maps 500 to 0x86, 1000 to
0x85 and 2000 to 0x84 and rejects rates outside the table with ValueError,
but — because the 4000 branch is a separate if whose result the subsequent
if/elif/else chain ignores — 4000 also falls into the else branch and
raises ValueError instead of writing 0x83: the code contradicts its own
documented rate set {500, 1000, 2000, 4000}. -/
theorem set_sampling_rate_table :
    set_sampling_rate_reg 500 = Except.ok 0x86
  ∧ set_sampling_rate_reg 1000 = Except.ok 0x85
  ∧ set_sampling_rate_reg 2000 = Except.ok 0x84
  ∧ set_sampling_rate_reg 4000 = Except.error ("Invalid sample rate")
  ∧ set_sampling_rate_reg 300 = Except.error ("Invalid sample rate")
  ∧ set_sampling_rate_reg 0 = Except.error ("Invalid sample rate") := by
  decide

theorem except_bind_ok {e a b : Type} (x : a) (f : a → Except e b) :
    (Except.ok x >>= f : Except e b) = f x := rfl

theorem except_bind_err {e a b : Type} (msg : e) (f : a → Except e b) :
    (Except.error msg >>= f : Except e b) = Except.error msg := rfl

theorem convert_24b_to_float_slice (raw : List Nat) (i b0 b1 b2 : Nat)
    (hsl : chanSlice raw i = [b0, b1, b2])
    (h0 : b0 < 256) (h1 : b1 < 256) (h2 : b2 < 256) :
    convert_24b_to_float (chanSlice raw i) = Except.ok (sliceVal raw i) := by
  rw [convert_24b_to_float, hsl, convert_24b_data_eq_of_lt b0 b1 b2 h0 h1 h2]
  simp only [sliceVal, hsl, Except.map]

theorem decode_channels_ok (raw : List Nat) (is : List Nat)
    (h : ∀ i ∈ is, (chanSlice raw i).length = 3 ∧ ∀ b ∈ chanSlice raw i, b < 256) :
    decode_channels raw is = Except.ok (is.map (sliceVal raw)) := by
  induction is with
  | nil => rfl
  | cons i is ih =>
    obtain ⟨hlen, hb⟩ := h i (by simp)
    match hsl : chanSlice raw i with
    | [b0, b1, b2] =>
      rw [hsl] at hb
      have hcv := convert_24b_to_float_slice raw i b0 b1 b2 hsl
        (hb b0 (by simp)) (hb b1 (by simp)) (hb b2 (by simp))
      simp only [decode_channels, hcv, except_bind_ok,
        ih (fun j hj => h j (List.mem_cons_of_mem i hj)), List.map_cons]
    | [] => rw [hsl] at hlen; simp at hlen
    | [_] => rw [hsl] at hlen; simp at hlen
    | [_, _] => rw [hsl] at hlen; simp at hlen
    | _ :: _ :: _ :: _ :: _ => rw [hsl] at hlen; simp at hlen

theorem decode_channels_err (raw : List Nat) (is : List Nat) (i : Nat)
    (hmem : i ∈ is) (hlen : (chanSlice raw i).length ≠ 3) :
    ∃ e, decode_channels raw is = Except.error e := by
  induction is with
  | nil => simp at hmem
  | cons j is ih =>
    rcases List.mem_cons.mp hmem with hj | hmem'
    · subst hj
      refine ⟨"Input should be 3 bytes long.", ?_⟩
      simp only [decode_channels, convert_24b_to_float,
        convert_24b_data_len_err _ hlen, Except.map, except_bind_err]
    · cases hc : convert_24b_to_float (chanSlice raw j) with
      | error e => exact ⟨e, by simp only [decode_channels, hc, except_bind_err]⟩
      | ok v =>
        obtain ⟨e, he⟩ := ih hmem'
        exact ⟨e, by simp only [decode_channels, hc, he, except_bind_ok, except_bind_err]⟩

theorem status_word_mask (b0 b1 b2 : Nat) (h0 : b0 < 256) (h1 : b1 < 256) (h2 : b2 < 256) :
    ((if 127 < b0 then 0xff else 0x00) * 2 ^ 24 + (b0 * 2 ^ 16 + b1 * 2 ^ 8 + b2)) % 2 ^ 24
      = b0 * 2 ^ 16 + b1 * 2 ^ 8 + b2 := by
  by_cases hs : 127 < b0 <;> simp only [if_pos, if_neg, hs, ite_true, ite_false] <;> omega

theorem decode_frame_sync_err (b0 b1 b2 cc : Nat) (rest : List Nat)
    (h0 : b0 < 256) (h1 : b1 < 256) (h2 : b2 < 256)
    (hf : status_in_sync (b0 * 2 ^ 16 + b1 * 2 ^ 8 + b2) = false) :
    decode_frame cc (b0 :: b1 :: b2 :: rest)
      = Except.error ("Data stream out of sync") := by
  have htake : (b0 :: b1 :: b2 :: rest).take 3 = [b0, b1, b2] := rfl
  simp only [decode_frame, htake, convert_24b_data_u_eq_of_lt b0 b1 b2 h0 h1 h2,
    except_bind_ok, status_word_mask b0 b1 b2 h0 h1 h2, hf]
  simp

/-- C4 (amended): the sync check of the decoder passes exactly when the top
4 bits of the 24-bit status word equal 1100b (those top 4 bits being the
top 4 bits of the first status byte), but on any other top-4-bit pattern
the decoder raises the out-of-sync AssertionError — it aborts instead of
returning an in_sync = false result. -/
theorem status_sync_spec (b0 b1 b2 cc : Nat) (rest : List Nat)
    (h0 : b0 < 256) (h1 : b1 < 256) (h2 : b2 < 256) :
    (status_in_sync (b0 * 2 ^ 16 + b1 * 2 ^ 8 + b2) = true
      ↔ (b0 * 2 ^ 16 + b1 * 2 ^ 8 + b2) / 2 ^ 20 = 0b1100)
  ∧ (b0 * 2 ^ 16 + b1 * 2 ^ 8 + b2) / 2 ^ 20 = b0 / 2 ^ 4
  ∧ (status_in_sync (b0 * 2 ^ 16 + b1 * 2 ^ 8 + b2) = false
      → decode_frame cc (b0 :: b1 :: b2 :: rest)
          = Except.error ("Data stream out of sync")) := by
  exact ⟨by simp [status_in_sync], by omega,
    decode_frame_sync_err b0 b1 b2 cc rest h0 h1 h2⟩

/-- C4 counterexample: with status word 0x000000 (top 4 bits 0000b, e.g. a
27-byte all-zero frame at the source's NUM_CHANNELS = 8) the decode does
not return in_sync = false: it raises the out-of-sync AssertionError. The
sentinel itself behaves as claimed: 0xC00000 passes the check, 0x000000
does not. -/
theorem status_sync_counterexample :
    decode_frame NUM_CHANNELS (List.replicate 27 0)
      = Except.error ("Data stream out of sync")
  ∧ status_in_sync 0xC00000 = true
  ∧ status_in_sync 0x000000 = false := by
  decide

/-- Witness for C4 at the concrete status bytes (0xC5, 0x12, 0x34) and
(0x00, 0x00, 0x00). -/
theorem status_sync_spec_witness :
    (status_in_sync (0xC5 * 2 ^ 16 + 0x12 * 2 ^ 8 + 0x34) = true
      ↔ (0xC5 * 2 ^ 16 + 0x12 * 2 ^ 8 + 0x34) / 2 ^ 20 = 0b1100)
  ∧ (status_in_sync (0 * 2 ^ 16 + 0 * 2 ^ 8 + 0) = false
      → decode_frame 3 (0 :: 0 :: 0 :: []) = Except.error ("Data stream out of sync")) :=
  ⟨(status_sync_spec 0xC5 0x12 0x34 8 [] (by decide) (by decide) (by decide)).1,
   (status_sync_spec 0 0 0 3 [] (by decide) (by decide) (by decide)).2.2⟩

/-- C5 (amended): decoding a frame fails whenever the buffer is SHORTER
than 3 + 3 * channel_count (the failure surfaces from the 3-byte
converter's length check, or from the sync assert when the truncated
status word is out of sync); a buffer of length at least
3 + 3 * channel_count whose status word is in sync decodes to
channel_count physical values in the same order as the input 3-byte
groups — in particular a LONGER buffer is not rejected, its extra bytes
are silently ignored. -/
theorem decode_frame_length_spec (cc b0 b1 b2 : Nat) (rest : List Nat)
    (hb : ∀ b ∈ b0 :: b1 :: b2 :: rest, b < 256) :
    ((b0 :: b1 :: b2 :: rest).length < 3 + 3 * cc
      → ∃ e, decode_frame cc (b0 :: b1 :: b2 :: rest) = Except.error e)
  ∧ (3 + 3 * cc ≤ (b0 :: b1 :: b2 :: rest).length
      → status_in_sync (b0 * 2 ^ 16 + b1 * 2 ^ 8 + b2) = true
      → decode_frame cc (b0 :: b1 :: b2 :: rest)
          = Except.ok ((b0 * 2 ^ 16 + b1 * 2 ^ 8 + b2) / 2 ^ 12 % 2 ^ 8,
              (b0 * 2 ^ 16 + b1 * 2 ^ 8 + b2) / 2 ^ 4 % 2 ^ 8,
              (List.range cc).map (sliceVal (b0 :: b1 :: b2 :: rest))))
  ∧ (∀ raw : List Nat, raw.length < 3 → ∃ e, decode_frame cc raw = Except.error e) := by
  have h0 : b0 < 256 := hb b0 (by simp)
  have h1 : b1 < 256 := hb b1 (by simp)
  have h2 : b2 < 256 := hb b2 (by simp)
  have htake : (b0 :: b1 :: b2 :: rest).take 3 = [b0, b1, b2] := rfl
  refine ⟨?_, ?_, ?_⟩
  · intro hshort
    simp only [List.length_cons] at hshort
    have hcc : 1 ≤ cc := by omega
    cases hsync : status_in_sync (b0 * 2 ^ 16 + b1 * 2 ^ 8 + b2) with
    | false =>
      exact ⟨_, decode_frame_sync_err b0 b1 b2 cc rest h0 h1 h2 hsync⟩
    | true =>
      have hmem : cc - 1 ∈ List.range cc := List.mem_range.mpr (by omega)
      have hlen : (chanSlice (b0 :: b1 :: b2 :: rest) (cc - 1)).length ≠ 3 := by
        simp only [chanSlice, List.length_take, List.length_drop, List.length_cons]
        omega
      obtain ⟨e, he⟩ := decode_channels_err (b0 :: b1 :: b2 :: rest) (List.range cc)
        (cc - 1) hmem hlen
      refine ⟨e, ?_⟩
      simp only [decode_frame, htake, convert_24b_data_u_eq_of_lt b0 b1 b2 h0 h1 h2,
        except_bind_ok, status_word_mask b0 b1 b2 h0 h1 h2, hsync, if_true, he,
        except_bind_err]
  · intro hlong hsync
    have hok : decode_channels (b0 :: b1 :: b2 :: rest) (List.range cc)
        = Except.ok ((List.range cc).map (sliceVal (b0 :: b1 :: b2 :: rest))) := by
      apply decode_channels_ok
      intro i hi
      have hi' : i < cc := List.mem_range.mp hi
      constructor
      · simp only [chanSlice, List.length_take, List.length_drop, List.length_cons]
        simp only [List.length_cons] at hlong
        omega
      · intro b hbmem
        exact hb b (List.take_subset _ _ (by exact hbmem) |> List.drop_subset _ _)
    simp only [decode_frame, htake, convert_24b_data_u_eq_of_lt b0 b1 b2 h0 h1 h2,
      except_bind_ok, status_word_mask b0 b1 b2 h0 h1 h2, hsync, if_true, hok]
  · intro raw hraw
    have hlen : (raw.take 3).length ≠ 3 := by
      simp only [List.length_take]
      omega
    exact ⟨"Input should be 3 bytes long.", by
      simp only [decode_frame, convert_24b_data_u_len_err _ hlen, except_bind_err]⟩

/-- C5 counterexample: a 7-byte buffer with channel_count = 1 (expected
exact length 6) is NOT rejected — the extra trailing byte is ignored and
the decode succeeds — and at the exact length the success additionally
depends on the status word being in sync (an all-zero exact-length frame
aborts). -/
theorem decode_frame_length_counterexample :
    (decode_frame 1 [0xC0, 0x00, 0x00, 0x00, 0x00, 0x01, 0x55]).isOk = true
  ∧ [0xC0, 0x00, 0x00, 0x00, 0x00, 0x01, 0x55].length ≠ 3 + 3 * 1
  ∧ decode_frame 1 [0x00, 0x00, 0x00, 0x00, 0x00, 0x01]
      = Except.error ("Data stream out of sync") := by
  refine ⟨?_, by decide, by decide⟩
  have h := (decode_frame_length_spec 1 0xC0 0x00 0x00 [0x00, 0x00, 0x01, 0x55]
    (by decide)).2.1 (by decide) (by decide)
  rw [h]
  rfl

/-- Witness for C5 at a concrete short buffer and a concrete exact
buffer. -/
theorem decode_frame_length_spec_witness :
    (∃ e, decode_frame 2 (0xC0 :: 0x00 :: 0x00 :: [0x11, 0x22]) = Except.error e)
  ∧ decode_frame 1 (0xC0 :: 0x00 :: 0x00 :: [0x00, 0x00, 0x03])
      = Except.ok ((0xC0 * 2 ^ 16 + 0x00 * 2 ^ 8 + 0x00) / 2 ^ 12 % 2 ^ 8,
          (0xC0 * 2 ^ 16 + 0x00 * 2 ^ 8 + 0x00) / 2 ^ 4 % 2 ^ 8,
          (List.range 1).map (sliceVal (0xC0 :: 0x00 :: 0x00 :: [0x00, 0x00, 0x03]))) :=
  ⟨(decode_frame_length_spec 2 0xC0 0x00 0x00 [0x11, 0x22] (by decide)).1 (by decide),
   (decode_frame_length_spec 1 0xC0 0x00 0x00 [0x00, 0x00, 0x03]
     (by decide)).2.1 (by decide) (by decide)⟩

/-- C2: while a stream is active every configure call raises the guard's
AssertionError (the mutate-while-streaming ConfigurationError of the spec)
with no field of the device configuration — nor any other attribute —
changed and no bus traffic; with no active stream, configure succeeds and
updates exactly the fields whose optional arguments are present. -/
theorem configure_guard (s : AdsState) (sr : Option Nat) (be : Option Bool) :
    (s.stream_active = true →
       (configure s sr be).err = some ("AssertionError: not self.stream_active")
     ∧ (configure s sr be).st = s
     ∧ (configure s sr be).acts = [])
  ∧ (s.stream_active = false →
       (configure s sr be).err = none
     ∧ (configure s sr be).st.sampling_rate = sr.getD s.sampling_rate
     ∧ (configure s sr be).st.bias_enabled = be.getD s.bias_enabled
     ∧ (configure s sr be).st.nb_channels = s.nb_channels
     ∧ (configure s sr be).st.stream_active = s.stream_active
     ∧ (configure s sr be).st.APIAlive = s.APIAlive
     ∧ (configure s sr be).st.clientUpdateHandles = s.clientUpdateHandles
     ∧ (configure s sr be).st.config_registers = s.config_registers) := by
  constructor
  · intro h
    simp [configure, h, mfail]
  · intro h
    simp [configure, h, mok]

/-- Witness for C2 at a concrete streaming state and a concrete idle
state. -/
theorem configure_guard_witness :
    ((configure exStreaming (some 1000) none).err
        = some ("AssertionError: not self.stream_active")
     ∧ (configure exStreaming (some 1000) none).st = exStreaming
     ∧ (configure exStreaming (some 1000) none).acts = [])
  ∧ ((configure initState (some 1000) none).err = none
     ∧ (configure initState (some 1000) none).st.sampling_rate
        = (some 1000).getD initState.sampling_rate
     ∧ (configure initState (some 1000) none).st.bias_enabled
        = none.getD initState.bias_enabled
     ∧ (configure initState (some 1000) none).st.nb_channels = initState.nb_channels
     ∧ (configure initState (some 1000) none).st.stream_active = initState.stream_active
     ∧ (configure initState (some 1000) none).st.APIAlive = initState.APIAlive
     ∧ (configure initState (some 1000) none).st.clientUpdateHandles
        = initState.clientUpdateHandles
     ∧ (configure initState (some 1000) none).st.config_registers
        = initState.config_registers) :=
  ⟨(configure_guard exStreaming (some 1000) none).1 rfl,
   (configure_guard initState (some 1000) none).2 rfl⟩

theorem writeImageRange_outside (bs : List Nat) (regs : Nat → Option Nat)
    (addr a : Nat) (h : a < addr ∨ addr + bs.length ≤ a) :
    writeImageRange regs addr bs a = regs a := by
  induction bs generalizing regs addr with
  | nil => rfl
  | cons b bs ih =>
    simp only [List.length_cons] at h
    simp only [writeImageRange]
    rw [ih _ _ (by omega)]
    rw [if_neg (by omega)]

theorem writeImageRange_at (bs : List Nat) (regs : Nat → Option Nat)
    (addr i : Nat) (h : i < bs.length) :
    writeImageRange regs addr bs (addr + i) = some (bs.getD i 0) := by
  induction bs generalizing regs addr i with
  | nil => simp at h
  | cons b bs ih =>
    cases i with
    | zero =>
      simp only [writeImageRange, Nat.add_zero, List.getD_cons_zero]
      rw [writeImageRange_outside bs _ (addr + 1) addr (Or.inl (by omega))]
      simp
    | succ j =>
      simp only [writeImageRange, List.getD_cons_succ]
      have hstep : addr + (j + 1) = (addr + 1) + j := by omega
      rw [hstep, ih _ _ _ (by simp only [List.length_cons] at h; omega)]

/-- C7: spi_write_single_reg records the value at the register in the
mirrored image and encodes the transaction [register | 0x40, 0x00, value];
spi_write_multiple_reg records each value at its address of the contiguous
range and encodes [base | 0x40, len - 1, ...values]; in both cases the
image update is computed independently of the transmission (the image
after a stub-mode call, which transmits nothing, is identical), which is
the source's update-before-and-regardless-of-transmission behaviour. -/
theorem register_write_spec (stub : Bool) (regs : Nat → Option Nat)
    (reg byte start_reg : Nat) (byte_array : List Nat) :
    ((spi_write_single_reg stub regs reg byte).1 reg = some byte)
  ∧ (∀ a, a ≠ reg → (spi_write_single_reg stub regs reg byte).1 a = regs a)
  ∧ ((spi_write_single_reg stub regs reg byte).1
      = (spi_write_single_reg true regs reg byte).1)
  ∧ ((spi_write_single_reg false regs reg byte).2 = [[reg ||| 0x40, 0x00, byte]])
  ∧ (∀ i, i < byte_array.length →
      (spi_write_multiple_reg stub regs start_reg byte_array).1 (start_reg + i)
        = some (byte_array.getD i 0))
  ∧ (∀ a, a < start_reg ∨ start_reg + byte_array.length ≤ a →
      (spi_write_multiple_reg stub regs start_reg byte_array).1 a = regs a)
  ∧ ((spi_write_multiple_reg stub regs start_reg byte_array).1
      = (spi_write_multiple_reg true regs start_reg byte_array).1)
  ∧ ((spi_write_multiple_reg false regs start_reg byte_array).2
      = [[start_reg ||| 0x40, byte_array.length - 1] ++ byte_array]) := by
  refine ⟨by simp [spi_write_single_reg], ?_, rfl, rfl, ?_, ?_, rfl, rfl⟩
  · intro a ha
    simp [spi_write_single_reg, if_neg ha]
  · intro i hi
    exact writeImageRange_at byte_array regs start_reg i hi
  · intro a ha
    exact writeImageRange_outside byte_array regs start_reg a ha

/-- Witness for C7 at a concrete image and byte values. -/
theorem register_write_spec_witness :
    ((spi_write_multiple_reg false (fun _ => none) REG_CHnSET_BASE [0x60, 0x61]).1
        (REG_CHnSET_BASE + 1) = some ([0x60, 0x61].getD 1 0))
  ∧ ((spi_write_single_reg false (fun _ => none) REG_CONFIG2 0xC0).1 0x30 = none)
  ∧ ((spi_write_single_reg false (fun _ => none) REG_CONFIG2 0xC0).2
      = [[REG_CONFIG2 ||| 0x40, 0x00, 0xC0]]) :=
  ⟨(register_write_spec false (fun _ => none) REG_CONFIG2 0xC0 REG_CHnSET_BASE
      [0x60, 0x61]).2.2.2.2.1 1 (by decide),
   (register_write_spec false (fun _ => none) REG_CONFIG2 0xC0 REG_CHnSET_BASE
      [0x60, 0x61]).2.1 0x30 (by decide),
   (register_write_spec false (fun _ => none) REG_CONFIG2 0xC0 REG_CHnSET_BASE
      [0x60, 0x61]).2.2.2.1⟩

theorem set_start_eq (stub state : Bool) (s : AdsState) :
    set_start stub state s = mfail s [] ("AttributeError: START_PIN") := by
  rw [set_start, if_neg (by decide : ¬ ("START_PIN" ∈ ads1298ClassAttrNames))]

theorem set_nreset_eq (stub state : Bool) (s : AdsState) :
    set_nreset stub state s = mfail s [] ("AttributeError: nRESET_PIN") := by
  rw [set_nreset, if_neg (by decide : ¬ ("nRESET_PIN" ∈ ads1298ClassAttrNames))]

theorem set_npwrdn_eq (stub state : Bool) (s : AdsState) :
    set_npwrdn stub state s = mfail s [] ("AttributeError: nPWRDN_PIN") := by
  rw [set_npwrdn, if_neg (by decide : ¬ ("nPWRDN_PIN" ∈ ads1298ClassAttrNames))]

theorem step_nb (stub : Bool) (s : AdsState) (e : Event) :
    (step stub s e).st.nb_channels = s.nb_channels := by
  cases e with
  | evConfigure sr be =>
    by_cases h : s.stream_active <;> simp [step, configure, h, mok, mfail]
  | evRegisterClient hdl => rfl
  | evStartExg =>
    cases hv : set_sampling_rate_reg s.sampling_rate with
    | error err =>
      simp [step, start_exg_stream, reset_ongoing_state, set_sampling_rate, hv,
        mseq, mok, mfail, wr_single, spi_transmit_byte]
    | ok v =>
      cases hb : s.bias_enabled <;>
        simp [step, start_exg_stream, reset_ongoing_state, set_sampling_rate, hv,
          setup_exg_mode, configure_dc_leads_off, setup_bias_drive, hb, set_start_eq,
          mseq, mok, mfail, wr_single, wr_multiple, configure_all_channels,
          spi_transmit_byte]
  | evStartTest =>
    cases hv : set_sampling_rate_reg s.sampling_rate with
    | error err =>
      simp [step, start_test_stream, reset_ongoing_state, set_sampling_rate, hv,
        mseq, mok, mfail, wr_single, spi_transmit_byte]
    | ok v =>
      simp [step, start_test_stream, reset_ongoing_state, set_sampling_rate, hv,
        setup_test_mode, configure_dc_leads_off, set_start_eq,
        mseq, mok, mfail, wr_single, wr_multiple, configure_all_channels,
        spi_transmit_byte]
  | evStopStream =>
    simp [step, stop_stream, mseq, mok, spi_transmit_byte]
  | evDrdy =>
    by_cases h : s.stream_active <;> simp [step, drdy_callback, h, mok]

theorem run_nb (stub : Bool) (es : List Event) (s : AdsState) :
    (run stub s es).nb_channels = s.nb_channels := by
  induction es generalizing s with
  | nil => rfl
  | cons e es ih => rw [run, ih, step_nb]

/-- C6: in every state reachable from the initial state by any event
sequence, the configured channel count of the device configuration is
still 8 (no operation ever mutates nb_channels), and a ready-signal event
arriving while the stream is active makes the hardware-mode pipeline read
exactly 3 + 3 * nb_channels = 27 bytes from the bus before dispatching;
the source expresses this count as 3 + NUM_CHANNELS * 3 with the module
constant NUM_CHANNELS = 8 equal to the configured nb_channels. -/
theorem drdy_read_length_spec (es : List Event) :
    (run false initState es).nb_channels = 8
  ∧ ((run false initState es).stream_active = true →
      (drdy_callback false (run false initState es)).acts
        = Act.busRead (3 + 3 * (run false initState es).nb_channels)
          :: (run false initState es).clientUpdateHandles.map Act.dispatch) := by
  have hnb : (run false initState es).nb_channels = 8 := run_nb false es initState
  refine ⟨hnb, fun hs => ?_⟩
  simp [drdy_callback, hs, mok, hnb, NUM_CHANNELS]

/-- Witness for C6: a start-test call (whose trailing set_start raises, as
per C10, after stream_active is already set) leaves the stream active, and
the next ready-signal event reads exactly 27 bytes. -/
theorem drdy_read_length_spec_witness :
    (run false initState [Event.evStartTest]).stream_active = true
  ∧ (drdy_callback false (run false initState [Event.evStartTest])).acts
      = Act.busRead (3 + 3 * (run false initState [Event.evStartTest]).nb_channels)
        :: (run false initState [Event.evStartTest]).clientUpdateHandles.map Act.dispatch :=
  ⟨by decide, (drdy_read_length_spec [Event.evStartTest]).2 (by decide)⟩

/-- C9: while the stream is active, one ready-signal event invokes every
registered client handle exactly once, synchronously, in registration
order (the dispatch actions are exactly the handle list in order, after
the single bus read), without touching the state; and register_client is
append-only: it only ever appends the new handle at the end of the
registry. -/
theorem dispatch_order_spec (stub : Bool) (s : AdsState) (handle : Nat)
    (h : s.stream_active = true) :
    (drdy_callback stub s).acts
      = (if stub then [] else [Act.busRead (3 + NUM_CHANNELS * 3)])
        ++ s.clientUpdateHandles.map Act.dispatch
  ∧ (drdy_callback stub s).st = s
  ∧ (drdy_callback stub s).err = none
  ∧ (register_client s handle).st.clientUpdateHandles
      = s.clientUpdateHandles ++ [handle]
  ∧ (register_client s handle).st.stream_active = s.stream_active
  ∧ (register_client s handle).err = none := by
  simp [drdy_callback, register_client, h, mok]

/-- Witness for C9 at a concrete streaming state with two registered
clients. -/
theorem dispatch_order_spec_witness :
    (drdy_callback false exStreaming).acts
      = (if false then [] else [Act.busRead (3 + NUM_CHANNELS * 3)])
        ++ exStreaming.clientUpdateHandles.map Act.dispatch
  ∧ (register_client exStreaming 7).st.clientUpdateHandles
      = exStreaming.clientUpdateHandles ++ [7] :=
  ⟨(dispatch_order_spec false exStreaming 7 rfl).1,
   (dispatch_order_spec false exStreaming 7 rfl).2.2.2.1⟩

theorem run_stream_inactive (stub : Bool) (es : List Event) (s : AdsState)
    (hflag : s.stream_active = false)
    (h : ∀ e ∈ es, e ≠ Event.evStartExg ∧ e ≠ Event.evStartTest) :
    (run stub s es).stream_active = false := by
  induction es generalizing s with
  | nil => exact hflag
  | cons e es ih =>
    obtain ⟨hx, ht⟩ := h e (by simp)
    have hstep : (step stub s e).st.stream_active = false := by
      cases e with
      | evConfigure sr be => simp [step, configure, hflag, mok, mfail]
      | evRegisterClient hdl => simp [step, register_client, mok, hflag]
      | evStartExg => exact absurd rfl hx
      | evStartTest => exact absurd rfl ht
      | evStopStream => simp [step, stop_stream, mseq, mok, spi_transmit_byte]
      | evDrdy => simp [step, drdy_callback, mok, hflag]
    exact ih _ hstep (fun e' he' => h e' (List.mem_cons_of_mem e he'))

/-- C8: after stop_stream returns, the stream flag is down, and it stays
down across any further events that are not a stream start; every
ready-signal event arriving in that span is ignored completely — no bus
read, no client dispatch, no state change (the action list of the DRDY
handler is empty). -/
theorem stop_stream_no_dispatch (stub : Bool) (s0 : AdsState) (es : List Event)
    (h : ∀ e ∈ es, e ≠ Event.evStartExg ∧ e ≠ Event.evStartTest) :
    (stop_stream stub s0).st.stream_active = false
  ∧ (drdy_callback stub (run stub (stop_stream stub s0).st es)).acts = []
  ∧ (drdy_callback stub (run stub (stop_stream stub s0).st es)).st
      = run stub (stop_stream stub s0).st es := by
  have hstop : (stop_stream stub s0).st.stream_active = false := by
    simp [stop_stream, mseq, mok, spi_transmit_byte]
  have hrun := run_stream_inactive stub es _ hstop h
  exact ⟨hstop, by simp [drdy_callback, hrun, mok], by simp [drdy_callback, hrun, mok]⟩

/-- Witness for C8: stop from a concrete streaming state, then a configure
attempt, a client registration and two ready-signal events — the final
ready-signal event dispatches nothing. -/
theorem stop_stream_no_dispatch_witness :
    (stop_stream false exStreaming).st.stream_active = false
  ∧ (drdy_callback false (run false (stop_stream false exStreaming).st
      [Event.evDrdy, Event.evRegisterClient 9, Event.evConfigure (some 1000) none,
       Event.evDrdy])).acts = [] :=
  ⟨(stop_stream_no_dispatch false exStreaming [] (by decide)).1,
   (stop_stream_no_dispatch false exStreaming
      [Event.evDrdy, Event.evRegisterClient 9, Event.evConfigure (some 1000) none,
       Event.evDrdy] (by decide)).2.1⟩

/-- C10: the control-pin helpers read START_PIN / nRESET_PIN / nPWRDN_PIN
as instance attributes although those names exist only as module-level
constants, so the attribute lookup raises before any pin is driven — in
hardware AND stub mode, because the lookup happens while evaluating the
argument of set_pin, before its stub short-circuit. Consequently every
open_device call dies inside ads1298_startup_sequence on self.nRESET_PIN
with the power-up sequence not even started (the startup sequence performs
no action at all), and every start_exg_stream / start_test_stream call
raises before the read-continuous command RDATAC reaches the bus (with
the attribute error on self.START_PIN whenever the configured sampling
rate lets reset_ongoing_state complete). -/
theorem pin_attr_lookup_failure (stub : Bool) (readReg : Nat → Nat) (s : AdsState) :
    ((ads1298_startup_sequence stub readReg s).err = some ("AttributeError: nRESET_PIN")
     ∧ (ads1298_startup_sequence stub readReg s).acts = []
     ∧ (open_device stub readReg s).err = some ("AttributeError: nRESET_PIN")
     ∧ Act.busWrite [SDATAC] ∉ (open_device stub readReg s).acts
     ∧ (∀ p lv, Act.pinSet p lv ∉ (open_device stub readReg s).acts))
  ∧ ((start_exg_stream stub s).err.isSome = true
     ∧ Act.busWrite [RDATAC] ∉ (start_exg_stream stub s).acts
     ∧ ((∃ v, set_sampling_rate_reg s.sampling_rate = Except.ok v) →
          (start_exg_stream stub s).err = some ("AttributeError: START_PIN")))
  ∧ ((start_test_stream stub s).err.isSome = true
     ∧ Act.busWrite [RDATAC] ∉ (start_test_stream stub s).acts
     ∧ ((∃ v, set_sampling_rate_reg s.sampling_rate = Except.ok v) →
          (start_test_stream stub s).err = some ("AttributeError: START_PIN"))) := by
  refine ⟨⟨?_, ?_, ?_, ?_, ?_⟩, ?_, ?_⟩
  · simp [ads1298_startup_sequence, set_nreset_eq, mseq, mfail]
  · simp [ads1298_startup_sequence, set_nreset_eq, mseq, mfail]
  · cases stub <;>
      simp [open_device, ads1298_startup_sequence, set_nreset_eq, mseq, mok, mfail]
  · cases stub <;>
      simp [open_device, ads1298_startup_sequence, set_nreset_eq, mseq, mok, mfail,
        SDATAC]
  · intro p lv
    cases stub <;>
      simp [open_device, ads1298_startup_sequence, set_nreset_eq, mseq, mok, mfail]
  · cases hv : set_sampling_rate_reg s.sampling_rate with
    | error err =>
      refine ⟨?_, ?_, ?_⟩
      · cases stub <;>
          simp [start_exg_stream, reset_ongoing_state, set_sampling_rate, hv,
            mseq, mok, mfail, wr_single, spi_write_single_reg, spi_transmit_byte]
      · cases stub <;>
          simp [start_exg_stream, reset_ongoing_state, set_sampling_rate, hv,
            mseq, mok, mfail, wr_single, spi_write_single_reg, spi_transmit_byte,
            RDATAC, SDATAC, REG_CONFIG3]
      · rintro ⟨v, hv2⟩
        simp at hv2
    | ok v =>
      refine ⟨?_, ?_, ?_⟩ <;>
        cases hb : s.bias_enabled <;>
          cases stub <;>
            simp [start_exg_stream, reset_ongoing_state, set_sampling_rate, hv,
              setup_exg_mode, configure_dc_leads_off, setup_bias_drive, hb,
              set_start_eq, mseq, mok, mfail, wr_single, wr_multiple,
              spi_write_single_reg, spi_write_multiple_reg, configure_all_channels,
              spi_transmit_byte, RDATAC, SDATAC, NUM_CHANNELS,
              REG_CONFIG1, REG_CONFIG2, REG_CONFIG3, REG_BIAS_SENSP, REG_BIAS_SENSN,
              REG_CHnSET_BASE, REG_LOFF, REG_LOFF_SENSP, REG_LOFF_SENSN,
              REG_LOFF_FLIP, REG_CONFIG4, REG_WCT1]
  · cases hv : set_sampling_rate_reg s.sampling_rate with
    | error err =>
      refine ⟨?_, ?_, ?_⟩
      · cases stub <;>
          simp [start_test_stream, reset_ongoing_state, set_sampling_rate, hv,
            mseq, mok, mfail, wr_single, spi_write_single_reg, spi_transmit_byte]
      · cases stub <;>
          simp [start_test_stream, reset_ongoing_state, set_sampling_rate, hv,
            mseq, mok, mfail, wr_single, spi_write_single_reg, spi_transmit_byte,
            RDATAC, SDATAC, REG_CONFIG3]
      · rintro ⟨v, hv2⟩
        simp at hv2
    | ok v =>
      refine ⟨?_, ?_, ?_⟩ <;>
        cases stub <;>
          simp [start_test_stream, reset_ongoing_state, set_sampling_rate, hv,
            setup_test_mode, configure_dc_leads_off, set_start_eq, mseq, mok, mfail,
            wr_single, wr_multiple, spi_write_single_reg, spi_write_multiple_reg,
            configure_all_channels, spi_transmit_byte, RDATAC, SDATAC, NUM_CHANNELS,
            REG_CONFIG1, REG_CONFIG2, REG_CONFIG3, REG_CHnSET_BASE, REG_LOFF,
            REG_LOFF_SENSP, REG_LOFF_SENSN, REG_LOFF_FLIP, REG_CONFIG4]

/-- Witness for C10: in stub mode from the initial state (whose sampling
rate 500 is accepted by the rate table), open_device and both stream
starts raise the attribute errors. -/
theorem pin_attr_lookup_failure_witness :
    (open_device true (fun _ => 0) initState).err = some ("AttributeError: nRESET_PIN")
  ∧ (start_exg_stream true initState).err = some ("AttributeError: START_PIN")
  ∧ (start_test_stream true initState).err = some ("AttributeError: START_PIN") :=
  ⟨(pin_attr_lookup_failure true (fun _ => 0) initState).1.2.2.1,
   (pin_attr_lookup_failure true (fun _ => 0) initState).2.1.2.2
     ⟨0x86, by decide⟩,
   (pin_attr_lookup_failure true (fun _ => 0) initState).2.2.2.2
     ⟨0x86, by decide⟩⟩
